import Mathlib

/-!
Verification of the hvac crate: a single-stage HVAC controller state machine
(source: src/lib.rs). The embedding below translates the data model and every
public operation of the crate into Lean. Machine integers (Rust u32) are
modelled as Nat; the one place where u32 overflow matters, the subtraction
inside wait_seconds, is modelled with an explicit wrap modulo 2 ^ 32
(release-mode Rust semantics), and the underflow condition itself is tracked
separately so that claims about it can be settled.
-/

set_option autoImplicit false

/-- The u32 modulus, 2 ^ 32. -/
def U32 : Nat := 4294967296

/-- Wrapping u32 subtraction, the release-mode semantics of the Rust
expression a - b on u32 operands (faithful for a, b < U32). -/
def u32sub (a b : Nat) : Nat := (a + U32 - b) % U32

/-- Embeds enum HvacService (src/lib.rs, lines 138-143). -/
inductive HvacService where
  | Heat
  | Cool
deriving DecidableEq, Repr

/-- Embeds struct HvacState (src/lib.rs, lines 147-152): the snapshot returned
by every operation. -/
structure HvacState where
  service : Option HvacService
  fan : Bool
deriving DecidableEq, Repr

/-- Embeds struct Hvac (src/lib.rs, lines 156-178): the controller state. -/
structure Hvac where
  active_service : Option HvacService
  fan_active : Bool
  last_update : Option Nat
  heat_calling : Bool
  heat_min_run_seconds : Option Nat
  heat_min_recover_seconds : Option Nat
  heat_wait_seconds : Option Nat
  heat_last_start_seconds : Option Nat
  heat_last_stop_seconds : Option Nat
  cool_calling : Bool
  cool_min_run_seconds : Option Nat
  cool_min_recover_seconds : Option Nat
  cool_wait_seconds : Option Nat
  cool_last_start_seconds : Option Nat
  cool_last_stop_seconds : Option Nat
  fan_auto : Bool
  fan_min_run_seconds : Option Nat
  fan_min_recover_seconds : Option Nat
  fan_wait_seconds : Option Nat
  fan_last_start_seconds : Option Nat
  fan_last_stop_seconds : Option Nat
deriving DecidableEq, Repr

/-- Embeds impl Default for Hvac (src/lib.rs, lines 180-206). -/
def Hvac.default : Hvac where
  active_service := none
  fan_active := false
  last_update := none
  heat_calling := false
  heat_min_run_seconds := some 60
  heat_min_recover_seconds := some 60
  heat_wait_seconds := some 60
  heat_last_start_seconds := none
  heat_last_stop_seconds := none
  cool_calling := false
  cool_min_run_seconds := some 300
  cool_min_recover_seconds := some 300
  cool_wait_seconds := some 60
  cool_last_start_seconds := none
  cool_last_stop_seconds := none
  fan_auto := true
  fan_min_run_seconds := some 60
  fan_min_recover_seconds := some 60
  fan_wait_seconds := some 60
  fan_last_start_seconds := none
  fan_last_stop_seconds := none

/-- Embeds fn wait_seconds (src/lib.rs, lines 208-227). The subtraction
last_update - last_change.unwrap_or(0) is a u32 subtraction, modelled as
wrapping. -/
def wait_seconds (last_update min_seconds last_change : Option Nat) :
    Option Nat :=
  match last_update with
  | some lu =>
    match min_seconds with
    | some ms =>
      let delta := u32sub lu (last_change.getD 0)
      if delta < ms then some (ms - delta) else none
    | none => none
  | none => min_seconds

/-- Embeds fn Hvac::with_heat (src/lib.rs, lines 231-239). -/
def Hvac.with_heat (s : Hvac)
    (min_run_seconds min_recover_seconds : Option Nat) : Hvac :=
  { s with
    heat_min_run_seconds := min_run_seconds
    heat_min_recover_seconds := min_recover_seconds }

/-- Embeds fn Hvac::with_cool (src/lib.rs, lines 242-250). -/
def Hvac.with_cool (s : Hvac)
    (min_run_seconds min_recover_seconds : Option Nat) : Hvac :=
  { s with
    cool_min_run_seconds := min_run_seconds
    cool_min_recover_seconds := min_recover_seconds }

/-- Embeds fn Hvac::with_fan (src/lib.rs, lines 253-261). -/
def Hvac.with_fan (s : Hvac)
    (min_run_seconds min_recover_seconds : Option Nat) : Hvac :=
  { s with
    fan_min_run_seconds := min_run_seconds
    fan_min_recover_seconds := min_recover_seconds }

/-- Embeds fn Hvac::state (src/lib.rs, lines 263-268). -/
def Hvac.state (s : Hvac) : HvacState where
  service := s.active_service
  fan := s.fan_active

/-- Embeds the first section of fn Hvac::compute (src/lib.rs, lines 271-311):
the refresh of the three wait_seconds fields. The three Rust assignments are
independent (no assigned field is an input of another), so a single record
update is faithful. -/
def refreshWaits (s : Hvac) : Hvac :=
  { s with
    heat_wait_seconds :=
      if s.active_service = some HvacService.Heat then
        wait_seconds s.last_update s.heat_min_run_seconds
          s.heat_last_start_seconds
      else
        wait_seconds s.last_update s.heat_min_recover_seconds
          s.heat_last_stop_seconds
    cool_wait_seconds :=
      if s.active_service = some HvacService.Cool then
        wait_seconds s.last_update s.cool_min_run_seconds
          s.cool_last_start_seconds
      else
        wait_seconds s.last_update s.cool_min_recover_seconds
          s.cool_last_stop_seconds
    fan_wait_seconds :=
      if s.fan_active then
        wait_seconds s.last_update s.fan_min_run_seconds
          s.fan_last_start_seconds
      else
        wait_seconds s.last_update s.fan_min_recover_seconds
          s.fan_last_stop_seconds }

/-- Embeds the transition section of fn Hvac::compute (src/lib.rs,
lines 313-360): stop of the active service with possible same-tick handoff,
or start of a demanded service gated by fan availability. -/
def transition (s : Hvac) : Hvac :=
  match s.active_service with
  | some HvacService.Heat =>
    if !s.heat_calling && s.heat_wait_seconds.isNone then
      let s1 := { s with
        heat_last_stop_seconds := s.last_update
        active_service := none }
      if s1.cool_calling && s1.cool_wait_seconds.isNone then
        { s1 with
          cool_last_start_seconds := s1.last_update
          active_service := some HvacService.Cool }
      else if s1.fan_auto && s1.fan_wait_seconds.isNone then
        { s1 with
          fan_last_stop_seconds := s1.last_update
          fan_active := false }
      else s1
    else s
  | some HvacService.Cool =>
    if !s.cool_calling && s.cool_wait_seconds.isNone then
      let s1 := { s with
        cool_last_stop_seconds := s.last_update
        active_service := none }
      if s1.heat_calling && s1.heat_wait_seconds.isNone then
        { s1 with
          heat_last_start_seconds := s1.last_update
          active_service := some HvacService.Heat }
      else if s1.fan_auto && s1.fan_wait_seconds.isNone then
        { s1 with
          fan_last_stop_seconds := s1.last_update
          fan_active := false }
      else s1
    else s
  | none =>
    if s.heat_calling && s.heat_wait_seconds.isNone then
      let s1 :=
        if !s.fan_active && s.fan_wait_seconds.isNone then
          { s with
            fan_last_start_seconds := s.last_update
            fan_active := true }
        else s
      if s1.fan_active then
        { s1 with
          heat_last_start_seconds := s1.last_update
          active_service := some HvacService.Heat }
      else s1
    else if s.cool_calling && s.cool_wait_seconds.isNone then
      let s1 :=
        if !s.fan_active && s.fan_wait_seconds.isNone then
          { s with
            fan_last_start_seconds := s.last_update
            fan_active := true }
        else s
      if s1.fan_active then
        { s1 with
          cool_last_start_seconds := s1.last_update
          active_service := some HvacService.Cool }
      else s1
    else s

/-- Embeds the final fan section of fn Hvac::compute (src/lib.rs,
lines 362-368): automatic shutoff when idle, manual forcing. -/
def fanGovern (s : Hvac) : Hvac :=
  if s.fan_active && s.fan_auto then
    if s.active_service.isNone && s.fan_wait_seconds.isNone then
      { s with fan_active := false }
    else s
  else if !s.fan_auto && s.fan_wait_seconds.isNone then
    { s with fan_active := true }
  else s

/-- Embeds fn Hvac::compute (src/lib.rs, lines 270-371): refresh the wait
fields, run the transition, govern the fan, and return the snapshot. -/
def Hvac.compute (s : Hvac) : Hvac × HvacState :=
  let s3 := fanGovern (transition (refreshWaits s))
  (s3, s3.state)

/-- Embeds fn Hvac::tick (src/lib.rs, lines 374-377). -/
def Hvac.tick (s : Hvac) (current_seconds : Nat) : Hvac × HvacState :=
  Hvac.compute { s with last_update := some current_seconds }

/-- Embeds fn Hvac::heat (src/lib.rs, lines 380-384). -/
def Hvac.heat (s : Hvac) : Hvac × HvacState :=
  Hvac.compute { s with heat_calling := true, cool_calling := false }

/-- Embeds fn Hvac::cool (src/lib.rs, lines 387-391). -/
def Hvac.cool (s : Hvac) : Hvac × HvacState :=
  Hvac.compute { s with heat_calling := false, cool_calling := true }

/-- Embeds fn Hvac::fan_auto (src/lib.rs, lines 394-397); named after the
spec operation set_fan_auto because the Lean field projection Hvac.fan_auto
already takes the source name. -/
def Hvac.set_fan_auto (s : Hvac) (fan_auto : Bool) : Hvac × HvacState :=
  Hvac.compute { s with fan_auto := fan_auto }

/-- Embeds fn Hvac::idle (src/lib.rs, lines 400-404). -/
def Hvac.idle (s : Hvac) : Hvac × HvacState :=
  Hvac.compute { s with heat_calling := false, cool_calling := false }

/-- One public operation of the crate, for quantifying over call sequences. -/
inductive Op where
  | tick (current_seconds : Nat)
  | heat
  | cool
  | idle
  | setFanAuto (b : Bool)
  | withHeat (min_run_seconds min_recover_seconds : Option Nat)
  | withCool (min_run_seconds min_recover_seconds : Option Nat)
  | withFan (min_run_seconds min_recover_seconds : Option Nat)
deriving DecidableEq, Repr

/-- Apply one public operation to a controller state, keeping the resulting
state (the snapshot an operation returns is Hvac.state of that result). -/
def applyOp (h : Hvac) : Op → Hvac
  | Op.tick s => (Hvac.tick h s).1
  | Op.heat => (Hvac.heat h).1
  | Op.cool => (Hvac.cool h).1
  | Op.idle => (Hvac.idle h).1
  | Op.setFanAuto b => (Hvac.set_fan_auto h b).1
  | Op.withHeat a b => Hvac.with_heat h a b
  | Op.withCool a b => Hvac.with_cool h a b
  | Op.withFan a b => Hvac.with_fan h a b

/-- Run a sequence of public operations. -/
def runOps (h : Hvac) (ops : List Op) : Hvac := ops.foldl applyOp h

/-- Sanity checks replaying the crate doc example (src/lib.rs, lines 19-111). -/
def docExampleStart : Hvac :=
  ((Hvac.default.with_heat none (some 60)).with_cool (some 300)
    (some 300)).with_fan none none

/-- Modelled from the spec: the eligibility contract of spec section 4.1
(claim C2), with the subtraction delta = last_update - last_change.unwrap_or(0)
read over the integers, as the spec presents it (sections 3 and 7 treat an
underflowing subtraction as a precondition violation, not as wrapping). -/
def wait_seconds_contract (last_update min_seconds last_change : Option Int) :
    Option Int :=
  match last_update with
  | some lu =>
    match min_seconds with
    | some ms =>
      let delta := lu - last_change.getD 0
      if delta < ms then some (ms - delta) else none
    | none => none
  | none => min_seconds

/-- Concrete state with Heat active used to witness run_time_enforcement. -/
def runWitnessHeat : Hvac :=
  { Hvac.default with
    active_service := some HvacService.Heat
    heat_min_run_seconds := some 100
    heat_last_start_seconds := some 50
    last_update := some 50 }

/-- Concrete state with Cool active used to witness run_time_enforcement. -/
def runWitnessCool : Hvac :=
  { Hvac.default with
    active_service := some HvacService.Cool
    cool_min_run_seconds := some 100
    cool_last_start_seconds := some 50
    last_update := some 50 }

/-- The underflow condition of the u32 subtraction inside wait_seconds: the
subtraction is evaluated exactly when last_update and min_seconds are both
present, and underflows when last_update < last_change.unwrap_or(0). -/
def wsUnderflows (last_update min_seconds last_change : Option Nat) : Bool :=
  match last_update, min_seconds with
  | some lu, some _ => decide (lu < last_change.getD 0)
  | _, _ => false

/-- Whether a recompute of state s evaluates an underflowing subtraction:
mirrors exactly the three wait_seconds calls at the head of Hvac::compute. -/
def computeUnderflows (s : Hvac) : Bool :=
  (if s.active_service = some HvacService.Heat then
    wsUnderflows s.last_update s.heat_min_run_seconds s.heat_last_start_seconds
   else
    wsUnderflows s.last_update s.heat_min_recover_seconds
      s.heat_last_stop_seconds) ||
  (if s.active_service = some HvacService.Cool then
    wsUnderflows s.last_update s.cool_min_run_seconds s.cool_last_start_seconds
   else
    wsUnderflows s.last_update s.cool_min_recover_seconds
      s.cool_last_stop_seconds) ||
  (if s.fan_active then
    wsUnderflows s.last_update s.fan_min_run_seconds s.fan_last_start_seconds
   else
    wsUnderflows s.last_update s.fan_min_recover_seconds
      s.fan_last_stop_seconds)

/-- Whether executing one public operation from state h underflows: the
recompute runs on the state after the operation's field mutation; the three
with_ builders do not recompute. -/
def opUnderflows (h : Hvac) : Op → Bool
  | Op.tick s => computeUnderflows { h with last_update := some s }
  | Op.heat =>
    computeUnderflows { h with heat_calling := true, cool_calling := false }
  | Op.cool =>
    computeUnderflows { h with heat_calling := false, cool_calling := true }
  | Op.idle =>
    computeUnderflows { h with heat_calling := false, cool_calling := false }
  | Op.setFanAuto b => computeUnderflows { h with fan_auto := b }
  | Op.withHeat _ _ => false
  | Op.withCool _ _ => false
  | Op.withFan _ _ => false

/-- Whether any operation of the sequence underflows. -/
def runUnderflows (h : Hvac) : List Op → Bool
  | [] => false
  | op :: rest => opUnderflows h op || runUnderflows (applyOp h op) rest

/-- The tick arguments of the sequence are non-decreasing, starting from
lower bound lo. -/
def ticksMono : Nat → List Op → Bool
  | _, [] => true
  | lo, Op.tick s :: rest => decide (lo ≤ s) && ticksMono s rest
  | lo, _ :: rest => ticksMono lo rest

/-- Every recorded start and stop timestamp is bounded by the last seen
elapsed time. -/
def tsBound (s : Hvac) : Prop :=
  s.heat_last_start_seconds.getD 0 ≤ s.last_update.getD 0 ∧
  s.heat_last_stop_seconds.getD 0 ≤ s.last_update.getD 0 ∧
  s.cool_last_start_seconds.getD 0 ≤ s.last_update.getD 0 ∧
  s.cool_last_stop_seconds.getD 0 ≤ s.last_update.getD 0 ∧
  s.fan_last_start_seconds.getD 0 ≤ s.last_update.getD 0 ∧
  s.fan_last_stop_seconds.getD 0 ≤ s.last_update.getD 0

/-- A service is active only while the fan is on. -/
def fanInv (s : Hvac) : Prop :=
  s.active_service = none ∨ s.fan_active = true

/-- Tick through each elapsed second 0 .. n-1 in order. -/
def tickThrough (h : Hvac) : Nat → Hvac
  | 0 => h
  | n + 1 => (Hvac.tick (tickThrough h n) n).1

/-- The family of states traversed while waiting out heat recovery R from the
default controller with heat configured (no run constraint, recovery R) and
the fan unconstrained: no service, fan off, heat called, only the elapsed
time and the stored wait values vary. -/
def recoverState (R : Nat) (lu hw cw : Option Nat) : Hvac where
  active_service := none
  fan_active := false
  last_update := lu
  heat_calling := true
  heat_min_run_seconds := none
  heat_min_recover_seconds := some R
  heat_wait_seconds := hw
  heat_last_start_seconds := none
  heat_last_stop_seconds := none
  cool_calling := false
  cool_min_run_seconds := some 300
  cool_min_recover_seconds := some 300
  cool_wait_seconds := cw
  cool_last_start_seconds := none
  cool_last_stop_seconds := none
  fan_auto := true
  fan_min_run_seconds := none
  fan_min_recover_seconds := none
  fan_wait_seconds := none
  fan_last_start_seconds := none
  fan_last_stop_seconds := none

/-- Cool counterpart of recoverState. -/
def recoverStateC (R : Nat) (lu hw cw : Option Nat) : Hvac where
  active_service := none
  fan_active := false
  last_update := lu
  heat_calling := false
  heat_min_run_seconds := some 60
  heat_min_recover_seconds := some 60
  heat_wait_seconds := hw
  heat_last_start_seconds := none
  heat_last_stop_seconds := none
  cool_calling := true
  cool_min_run_seconds := none
  cool_min_recover_seconds := some R
  cool_wait_seconds := cw
  cool_last_start_seconds := none
  cool_last_stop_seconds := none
  fan_auto := true
  fan_min_run_seconds := none
  fan_min_recover_seconds := none
  fan_wait_seconds := none
  fan_last_start_seconds := none
  fan_last_stop_seconds := none

example :
    (runOps docExampleStart [Op.heat, Op.tick 0]).state =
      ⟨none, false⟩ := by decide

example :
    (runOps docExampleStart [Op.heat, Op.tick 59]).state =
      ⟨none, false⟩ := by decide

example :
    (runOps docExampleStart [Op.heat, Op.tick 60]).state =
      ⟨some HvacService.Heat, true⟩ := by decide

example :
    (runOps docExampleStart [Op.heat, Op.tick 60, Op.cool]).state =
      ⟨none, false⟩ := by decide

example :
    (runOps docExampleStart [Op.heat, Op.tick 60, Op.cool, Op.tick 300]).state =
      ⟨some HvacService.Cool, true⟩ := by decide

example :
    (runOps docExampleStart
      [Op.heat, Op.tick 60, Op.cool, Op.tick 300, Op.idle]).state =
      ⟨some HvacService.Cool, true⟩ := by decide

example :
    (runOps docExampleStart
      [Op.heat, Op.tick 60, Op.cool, Op.tick 300, Op.idle,
       Op.setFanAuto false]).state =
      ⟨some HvacService.Cool, true⟩ := by decide

example :
    (runOps docExampleStart
      [Op.heat, Op.tick 60, Op.cool, Op.tick 300, Op.idle,
       Op.setFanAuto false, Op.tick 600]).state =
      ⟨none, true⟩ := by decide

example :
    (runOps docExampleStart
      [Op.heat, Op.tick 60, Op.cool, Op.tick 300, Op.idle,
       Op.setFanAuto false, Op.tick 600, Op.setFanAuto true]).state =
      ⟨none, false⟩ := by decide

/-! Structural lemmas about the three sections of compute. -/

theorem u32sub_of_le {a b : Nat} (hb : b ≤ a) (ha : a < U32) :
    u32sub a b = a - b := by
  unfold u32sub U32 at *
  omega

@[simp] theorem refreshWaits_active (s : Hvac) :
    (refreshWaits s).active_service = s.active_service := rfl

@[simp] theorem refreshWaits_fan_active (s : Hvac) :
    (refreshWaits s).fan_active = s.fan_active := rfl

@[simp] theorem refreshWaits_last_update (s : Hvac) :
    (refreshWaits s).last_update = s.last_update := rfl

@[simp] theorem refreshWaits_heat_calling (s : Hvac) :
    (refreshWaits s).heat_calling = s.heat_calling := rfl

@[simp] theorem refreshWaits_cool_calling (s : Hvac) :
    (refreshWaits s).cool_calling = s.cool_calling := rfl

@[simp] theorem refreshWaits_fan_auto (s : Hvac) :
    (refreshWaits s).fan_auto = s.fan_auto := rfl

@[simp] theorem refreshWaits_heat_min_run (s : Hvac) :
    (refreshWaits s).heat_min_run_seconds = s.heat_min_run_seconds := rfl

@[simp] theorem refreshWaits_heat_min_recover (s : Hvac) :
    (refreshWaits s).heat_min_recover_seconds = s.heat_min_recover_seconds := rfl

@[simp] theorem refreshWaits_cool_min_run (s : Hvac) :
    (refreshWaits s).cool_min_run_seconds = s.cool_min_run_seconds := rfl

@[simp] theorem refreshWaits_cool_min_recover (s : Hvac) :
    (refreshWaits s).cool_min_recover_seconds = s.cool_min_recover_seconds := rfl

@[simp] theorem refreshWaits_fan_min_run (s : Hvac) :
    (refreshWaits s).fan_min_run_seconds = s.fan_min_run_seconds := rfl

@[simp] theorem refreshWaits_fan_min_recover (s : Hvac) :
    (refreshWaits s).fan_min_recover_seconds = s.fan_min_recover_seconds := rfl

@[simp] theorem refreshWaits_heat_last_start (s : Hvac) :
    (refreshWaits s).heat_last_start_seconds = s.heat_last_start_seconds := rfl

@[simp] theorem refreshWaits_heat_last_stop (s : Hvac) :
    (refreshWaits s).heat_last_stop_seconds = s.heat_last_stop_seconds := rfl

@[simp] theorem refreshWaits_cool_last_start (s : Hvac) :
    (refreshWaits s).cool_last_start_seconds = s.cool_last_start_seconds := rfl

@[simp] theorem refreshWaits_cool_last_stop (s : Hvac) :
    (refreshWaits s).cool_last_stop_seconds = s.cool_last_stop_seconds := rfl

@[simp] theorem refreshWaits_fan_last_start (s : Hvac) :
    (refreshWaits s).fan_last_start_seconds = s.fan_last_start_seconds := rfl

@[simp] theorem refreshWaits_fan_last_stop (s : Hvac) :
    (refreshWaits s).fan_last_stop_seconds = s.fan_last_stop_seconds := rfl

theorem refreshWaits_heat_wait (s : Hvac) :
    (refreshWaits s).heat_wait_seconds =
      if s.active_service = some HvacService.Heat then
        wait_seconds s.last_update s.heat_min_run_seconds
          s.heat_last_start_seconds
      else
        wait_seconds s.last_update s.heat_min_recover_seconds
          s.heat_last_stop_seconds := rfl

theorem refreshWaits_cool_wait (s : Hvac) :
    (refreshWaits s).cool_wait_seconds =
      if s.active_service = some HvacService.Cool then
        wait_seconds s.last_update s.cool_min_run_seconds
          s.cool_last_start_seconds
      else
        wait_seconds s.last_update s.cool_min_recover_seconds
          s.cool_last_stop_seconds := rfl

theorem refreshWaits_fan_wait (s : Hvac) :
    (refreshWaits s).fan_wait_seconds =
      if s.fan_active then
        wait_seconds s.last_update s.fan_min_run_seconds
          s.fan_last_start_seconds
      else
        wait_seconds s.last_update s.fan_min_recover_seconds
          s.fan_last_stop_seconds := rfl

@[simp] theorem transition_last_update (s : Hvac) :
    (transition s).last_update = s.last_update := by
  unfold transition
  cases hs : s.active_service with
  | none => dsimp only; split_ifs <;> rfl
  | some sv => cases sv <;> (dsimp only; split_ifs <;> rfl)

@[simp] theorem transition_fan_auto (s : Hvac) :
    (transition s).fan_auto = s.fan_auto := by
  unfold transition
  cases hs : s.active_service with
  | none => dsimp only; split_ifs <;> rfl
  | some sv => cases sv <;> (dsimp only; split_ifs <;> rfl)

@[simp] theorem transition_heat_calling (s : Hvac) :
    (transition s).heat_calling = s.heat_calling := by
  unfold transition
  cases hs : s.active_service with
  | none => dsimp only; split_ifs <;> rfl
  | some sv => cases sv <;> (dsimp only; split_ifs <;> rfl)

@[simp] theorem transition_cool_calling (s : Hvac) :
    (transition s).cool_calling = s.cool_calling := by
  unfold transition
  cases hs : s.active_service with
  | none => dsimp only; split_ifs <;> rfl
  | some sv => cases sv <;> (dsimp only; split_ifs <;> rfl)

@[simp] theorem transition_heat_wait (s : Hvac) :
    (transition s).heat_wait_seconds = s.heat_wait_seconds := by
  unfold transition
  cases hs : s.active_service with
  | none => dsimp only; split_ifs <;> rfl
  | some sv => cases sv <;> (dsimp only; split_ifs <;> rfl)

@[simp] theorem transition_cool_wait (s : Hvac) :
    (transition s).cool_wait_seconds = s.cool_wait_seconds := by
  unfold transition
  cases hs : s.active_service with
  | none => dsimp only; split_ifs <;> rfl
  | some sv => cases sv <;> (dsimp only; split_ifs <;> rfl)

@[simp] theorem transition_fan_wait (s : Hvac) :
    (transition s).fan_wait_seconds = s.fan_wait_seconds := by
  unfold transition
  cases hs : s.active_service with
  | none => dsimp only; split_ifs <;> rfl
  | some sv => cases sv <;> (dsimp only; split_ifs <;> rfl)

@[simp] theorem transition_heat_min_run (s : Hvac) :
    (transition s).heat_min_run_seconds = s.heat_min_run_seconds := by
  unfold transition
  cases hs : s.active_service with
  | none => dsimp only; split_ifs <;> rfl
  | some sv => cases sv <;> (dsimp only; split_ifs <;> rfl)

@[simp] theorem transition_heat_min_recover (s : Hvac) :
    (transition s).heat_min_recover_seconds = s.heat_min_recover_seconds := by
  unfold transition
  cases hs : s.active_service with
  | none => dsimp only; split_ifs <;> rfl
  | some sv => cases sv <;> (dsimp only; split_ifs <;> rfl)

@[simp] theorem transition_cool_min_run (s : Hvac) :
    (transition s).cool_min_run_seconds = s.cool_min_run_seconds := by
  unfold transition
  cases hs : s.active_service with
  | none => dsimp only; split_ifs <;> rfl
  | some sv => cases sv <;> (dsimp only; split_ifs <;> rfl)

@[simp] theorem transition_cool_min_recover (s : Hvac) :
    (transition s).cool_min_recover_seconds = s.cool_min_recover_seconds := by
  unfold transition
  cases hs : s.active_service with
  | none => dsimp only; split_ifs <;> rfl
  | some sv => cases sv <;> (dsimp only; split_ifs <;> rfl)

@[simp] theorem transition_fan_min_run (s : Hvac) :
    (transition s).fan_min_run_seconds = s.fan_min_run_seconds := by
  unfold transition
  cases hs : s.active_service with
  | none => dsimp only; split_ifs <;> rfl
  | some sv => cases sv <;> (dsimp only; split_ifs <;> rfl)

@[simp] theorem transition_fan_min_recover (s : Hvac) :
    (transition s).fan_min_recover_seconds = s.fan_min_recover_seconds := by
  unfold transition
  cases hs : s.active_service with
  | none => dsimp only; split_ifs <;> rfl
  | some sv => cases sv <;> (dsimp only; split_ifs <;> rfl)

@[simp] theorem fanGovern_active (s : Hvac) :
    (fanGovern s).active_service = s.active_service := by
  unfold fanGovern
  split_ifs <;> rfl

@[simp] theorem fanGovern_last_update (s : Hvac) :
    (fanGovern s).last_update = s.last_update := by
  unfold fanGovern
  split_ifs <;> rfl

@[simp] theorem fanGovern_heat_calling (s : Hvac) :
    (fanGovern s).heat_calling = s.heat_calling := by
  unfold fanGovern
  split_ifs <;> rfl

@[simp] theorem fanGovern_cool_calling (s : Hvac) :
    (fanGovern s).cool_calling = s.cool_calling := by
  unfold fanGovern
  split_ifs <;> rfl

@[simp] theorem fanGovern_fan_auto (s : Hvac) :
    (fanGovern s).fan_auto = s.fan_auto := by
  unfold fanGovern
  split_ifs <;> rfl

@[simp] theorem fanGovern_heat_min_run (s : Hvac) :
    (fanGovern s).heat_min_run_seconds = s.heat_min_run_seconds := by
  unfold fanGovern
  split_ifs <;> rfl

@[simp] theorem fanGovern_heat_min_recover (s : Hvac) :
    (fanGovern s).heat_min_recover_seconds = s.heat_min_recover_seconds := by
  unfold fanGovern
  split_ifs <;> rfl

@[simp] theorem fanGovern_cool_min_run (s : Hvac) :
    (fanGovern s).cool_min_run_seconds = s.cool_min_run_seconds := by
  unfold fanGovern
  split_ifs <;> rfl

@[simp] theorem fanGovern_cool_min_recover (s : Hvac) :
    (fanGovern s).cool_min_recover_seconds = s.cool_min_recover_seconds := by
  unfold fanGovern
  split_ifs <;> rfl

@[simp] theorem fanGovern_fan_min_run (s : Hvac) :
    (fanGovern s).fan_min_run_seconds = s.fan_min_run_seconds := by
  unfold fanGovern
  split_ifs <;> rfl

@[simp] theorem fanGovern_fan_min_recover (s : Hvac) :
    (fanGovern s).fan_min_recover_seconds = s.fan_min_recover_seconds := by
  unfold fanGovern
  split_ifs <;> rfl

@[simp] theorem fanGovern_heat_wait (s : Hvac) :
    (fanGovern s).heat_wait_seconds = s.heat_wait_seconds := by
  unfold fanGovern
  split_ifs <;> rfl

@[simp] theorem fanGovern_cool_wait (s : Hvac) :
    (fanGovern s).cool_wait_seconds = s.cool_wait_seconds := by
  unfold fanGovern
  split_ifs <;> rfl

@[simp] theorem fanGovern_fan_wait (s : Hvac) :
    (fanGovern s).fan_wait_seconds = s.fan_wait_seconds := by
  unfold fanGovern
  split_ifs <;> rfl

@[simp] theorem state_service (s : Hvac) :
    (Hvac.state s).service = s.active_service := rfl

@[simp] theorem state_fan (s : Hvac) :
    (Hvac.state s).fan = s.fan_active := rfl

theorem compute_eq (s : Hvac) :
    Hvac.compute s =
      (fanGovern (transition (refreshWaits s)),
        (fanGovern (transition (refreshWaits s))).state) := rfl

/-! Claim C2: the wait_seconds contract. -/

/-- Claim C2 as stated is false: at last_update = 0, min_seconds = 60,
last_change = 10 (an underflowing input, allowed by the claim's quantification
over all u32 inputs) the code returns None, while the claimed formula with
delta = 0 - 10 = -10 < 60 demands Some(min_seconds - delta) = Some 70. -/
theorem wait_seconds_contract_counterexample :
    wait_seconds (some 0) (some 60) (some 10) = none ∧
      wait_seconds_contract (some 0) (some 60) (some 10) = some 70 := by
  constructor
  · decide
  · decide

/-- Claim C2, amended: the contract holds for all u32 inputs in which the
subtraction does not underflow, that is, last_change.unwrap_or(0) is at most
last_update whenever both last_update and min_seconds are present (this is
exactly the monotonicity precondition of spec sections 3 and 7). -/
theorem wait_seconds_spec (lu ms lc : Option Nat)
    (hlu : ∀ u, lu = some u → u < U32) :
    (lu = none → wait_seconds lu ms lc = ms) ∧
    (∀ u, lu = some u → ms = none → wait_seconds lu ms lc = none) ∧
    (∀ u m, lu = some u → ms = some m → lc.getD 0 ≤ u →
      wait_seconds lu ms lc =
        if u - lc.getD 0 < m then some (m - (u - lc.getD 0)) else none) := by
  refine ⟨?_, ?_, ?_⟩
  · intro h
    subst h
    rfl
  · intro u hu hm
    subst hu
    subst hm
    rfl
  · intro u m hu hm hle
    subst hu
    subst hm
    have hlt : u < U32 := hlu u rfl
    simp only [wait_seconds, u32sub_of_le hle hlt]

/-- Witness for wait_seconds_spec at concrete inputs. -/
theorem wait_seconds_spec_witness :
    wait_seconds (some 100) (some 60) (some 10) = none := by
  have h :=
    (wait_seconds_spec (some 100) (some 60) (some 10)
      (by intro u hu; cases hu; decide)).2.2 100 60 rfl rfl (by decide)
  simpa using h

/-! Claim C5: same-tick heat-to-cool handoff. -/

/-- Claim C5: in any state where Heat is active, heat and cool both have no
run or recovery constraint, and a time has been seen, calling cool yields a
snapshot with Cool active in that single update. -/
theorem heat_cool_handoff (h : Hvac) (u : Nat)
    (hact : h.active_service = some HvacService.Heat)
    (h1 : h.heat_min_run_seconds = none)
    (h2 : h.heat_min_recover_seconds = none)
    (h3 : h.cool_min_run_seconds = none)
    (h4 : h.cool_min_recover_seconds = none)
    (hlu : h.last_update = some u) :
    ((Hvac.cool h).2).service = some HvacService.Cool := by
  have hc : Hvac.cool h =
      Hvac.compute { h with heat_calling := false, cool_calling := true } :=
    rfl
  rw [hc, compute_eq]
  simp only [state_service, fanGovern_active]
  unfold transition
  simp [refreshWaits, hact, h1, h3, h4, hlu, wait_seconds]

/-- Witness for heat_cool_handoff: a concrete reachable state with Heat active
and no heat or cool constraints. -/
theorem heat_cool_handoff_witness :
    ((Hvac.cool (runOps (((Hvac.default.with_heat none none).with_cool none
      none).with_fan none none) [Op.heat, Op.tick 5])).2).service =
      some HvacService.Cool := by
  apply heat_cool_handoff _ 5
  · decide
  · decide
  · decide
  · decide
  · decide
  · decide

/-! Helper evaluation lemmas for wait_seconds. -/

@[simp] theorem wait_seconds_none_min (lu lc : Option Nat) :
    wait_seconds lu none lc = none := by
  cases lu <;> rfl

@[simp] theorem wait_seconds_none_lu (ms lc : Option Nat) :
    wait_seconds none ms lc = ms := rfl

/-! Claim C6: fan gating of service start. -/

/-- Claim C6: in a recompute with no active service where heat is called and
eligible, heat does not start when the fan is off and the fan's wait is not
satisfied; heat starts when the fan is already on, or when the fan is off but
eligible and is turned on in the same step; symmetrically for cool. -/
theorem fan_gating :
    (∀ h : Hvac, h.active_service = none → h.heat_calling = true →
      wait_seconds h.last_update h.heat_min_recover_seconds
        h.heat_last_stop_seconds = none →
      h.fan_active = false →
      wait_seconds h.last_update h.fan_min_recover_seconds
        h.fan_last_stop_seconds ≠ none →
      ((Hvac.compute h).2).service = none) ∧
    (∀ h : Hvac, h.active_service = none → h.heat_calling = true →
      wait_seconds h.last_update h.heat_min_recover_seconds
        h.heat_last_stop_seconds = none →
      h.fan_active = true →
      ((Hvac.compute h).2).service = some HvacService.Heat) ∧
    (∀ h : Hvac, h.active_service = none → h.heat_calling = true →
      wait_seconds h.last_update h.heat_min_recover_seconds
        h.heat_last_stop_seconds = none →
      h.fan_active = false →
      wait_seconds h.last_update h.fan_min_recover_seconds
        h.fan_last_stop_seconds = none →
      ((Hvac.compute h).2).service = some HvacService.Heat) ∧
    (∀ h : Hvac, h.active_service = none → h.heat_calling = false →
      h.cool_calling = true →
      wait_seconds h.last_update h.cool_min_recover_seconds
        h.cool_last_stop_seconds = none →
      h.fan_active = false →
      wait_seconds h.last_update h.fan_min_recover_seconds
        h.fan_last_stop_seconds ≠ none →
      ((Hvac.compute h).2).service = none) ∧
    (∀ h : Hvac, h.active_service = none → h.heat_calling = false →
      h.cool_calling = true →
      wait_seconds h.last_update h.cool_min_recover_seconds
        h.cool_last_stop_seconds = none →
      h.fan_active = true →
      ((Hvac.compute h).2).service = some HvacService.Cool) ∧
    (∀ h : Hvac, h.active_service = none → h.heat_calling = false →
      h.cool_calling = true →
      wait_seconds h.last_update h.cool_min_recover_seconds
        h.cool_last_stop_seconds = none →
      h.fan_active = false →
      wait_seconds h.last_update h.fan_min_recover_seconds
        h.fan_last_stop_seconds = none →
      ((Hvac.compute h).2).service = some HvacService.Cool) := by
  refine ⟨?_, ?_, ?_, ?_, ?_, ?_⟩
  · intro h hact hcall hw hfan hfw
    rw [compute_eq]
    simp only [state_service, fanGovern_active]
    unfold transition
    rcases hfwv : wait_seconds h.last_update h.fan_min_recover_seconds
        h.fan_last_stop_seconds with _ | v
    · exact absurd hfwv hfw
    · simp [refreshWaits, hact, hcall, hw, hfan, hfwv]
  · intro h hact hcall hw hfan
    rw [compute_eq]
    simp only [state_service, fanGovern_active]
    unfold transition
    simp [refreshWaits, hact, hcall, hw, hfan]
  · intro h hact hcall hw hfan hfw
    rw [compute_eq]
    simp only [state_service, fanGovern_active]
    unfold transition
    simp [refreshWaits, hact, hcall, hw, hfan, hfw]
  · intro h hact hhc hcall hw hfan hfw
    rw [compute_eq]
    simp only [state_service, fanGovern_active]
    unfold transition
    rcases hfwv : wait_seconds h.last_update h.fan_min_recover_seconds
        h.fan_last_stop_seconds with _ | v
    · exact absurd hfwv hfw
    · simp [refreshWaits, hact, hhc, hcall, hw, hfan, hfwv]
  · intro h hact hhc hcall hw hfan
    rw [compute_eq]
    simp only [state_service, fanGovern_active]
    unfold transition
    simp [refreshWaits, hact, hhc, hcall, hw, hfan]
  · intro h hact hhc hcall hw hfan hfw
    rw [compute_eq]
    simp only [state_service, fanGovern_active]
    unfold transition
    simp [refreshWaits, hact, hhc, hcall, hw, hfan, hfw]

/-- Witness for fan_gating: with the default configuration, calling heat and
ticking to second 30 leaves heat eligible (recovery 60 measured from an
implicit origin is already counted from 0 only after 60), here at second 70
heat is eligible but a prior fan stop at second 50 keeps the fan waiting. -/
theorem fan_gating_witness :
    ((Hvac.compute { Hvac.default with
      last_update := some 70
      heat_calling := true
      fan_last_stop_seconds := some 50 }).2).service = none := by
  apply fan_gating.1
  · decide
  · decide
  · decide
  · decide
  · decide

/-! Claim C7: manual fan forcing. -/

/-- Claim C7 as stated is false: in the reachable state produced by calling
heat on the default controller and then removing both heat constraints and
both fan constraints, no service is active and there is no fan minimum-run
constraint, yet calling fan_auto(true) yields fan = true, because the pending
heat call starts (with the fan) in that same update. -/
theorem fan_auto_reenable_counterexample :
    (runOps Hvac.default
      [Op.heat, Op.withHeat none none, Op.withFan none none]).active_service =
      none ∧
    (runOps Hvac.default
      [Op.heat, Op.withHeat none none,
        Op.withFan none none]).fan_min_run_seconds = none ∧
    ((Hvac.set_fan_auto (runOps Hvac.default
      [Op.heat, Op.withHeat none none, Op.withFan none none]) true).2).fan =
      true := by
  refine ⟨by decide, by decide, by decide⟩

/-- Claim C7, amended: after any recompute performed with fan auto mode
disabled, if the fan's refreshed wait is satisfied the resulting snapshot has
fan = true regardless of service state; and calling fan_auto(true) in a state
with no active service, no fan minimum-run constraint, and no pending heat or
cool call yields fan = false in that same update. -/
theorem manual_fan_forcing :
    (∀ h : Hvac, h.fan_auto = false →
      (if h.fan_active then
        wait_seconds h.last_update h.fan_min_run_seconds
          h.fan_last_start_seconds
       else
        wait_seconds h.last_update h.fan_min_recover_seconds
          h.fan_last_stop_seconds) = none →
      ((Hvac.compute h).2).fan = true) ∧
    (∀ h : Hvac, h.active_service = none → h.fan_min_run_seconds = none →
      h.heat_calling = false → h.cool_calling = false →
      ((Hvac.set_fan_auto h true).2).fan = false) := by
  constructor
  · intro h hauto hw
    rw [compute_eq]
    simp only [state_fan]
    have h2 : (refreshWaits h).fan_wait_seconds = none := by
      rw [refreshWaits_fan_wait]
      exact hw
    unfold fanGovern
    simp [hauto, h2]
  · intro h hact hrun hhc hcc
    have hs : Hvac.set_fan_auto h true =
        Hvac.compute { h with fan_auto := true } := rfl
    rw [hs, compute_eq]
    simp only [state_fan]
    unfold transition fanGovern
    cases hfa : h.fan_active <;>
      simp [refreshWaits, hact, hrun, hhc, hcc, hfa]

/-- Witness for manual_fan_forcing: both parts at concrete states. -/
theorem manual_fan_forcing_witness :
    ((Hvac.compute { Hvac.default with
      fan_auto := false
      last_update := some 60 }).2).fan = true ∧
    ((Hvac.set_fan_auto { Hvac.default with
      fan_min_run_seconds := none
      fan_active := true
      fan_auto := false } true).2).fan = false := by
  constructor
  · apply manual_fan_forcing.1
    · decide
    · decide
  · apply manual_fan_forcing.2
    · decide
    · decide
    · decide
    · decide

/-! Claim C4: run-time enforcement. -/

theorem transition_heat_noop (s : Hvac)
    (hact : s.active_service = some HvacService.Heat)
    (hcond : (!s.heat_calling && s.heat_wait_seconds.isNone) = false) :
    transition s = s := by
  unfold transition
  rw [hact]
  simp [hcond]

theorem transition_cool_noop (s : Hvac)
    (hact : s.active_service = some HvacService.Cool)
    (hcond : (!s.cool_calling && s.cool_wait_seconds.isNone) = false) :
    transition s = s := by
  unfold transition
  rw [hact]
  simp [hcond]

/-- While Heat is active with run constraint R, start S, and every seen time
inside the run window, the recompute leaves the whole transition a no-op. -/
theorem compute_heat_active_noop (s : Hvac) (R S : Nat)
    (hact : s.active_service = some HvacService.Heat)
    (hrun : s.heat_min_run_seconds = some R)
    (hstart : s.heat_last_start_seconds = some S)
    (hlu : ∀ u, s.last_update = some u → S ≤ u ∧ u < S + R)
    (hU : S + R ≤ U32) :
    Hvac.compute s =
      (fanGovern (refreshWaits s), (fanGovern (refreshWaits s)).state) := by
  have hw : (refreshWaits s).heat_wait_seconds ≠ none := by
    rw [refreshWaits_heat_wait]
    simp only [hact, if_pos, hrun, hstart]
    rcases hu : s.last_update with _ | u
    · simp [wait_seconds]
    · obtain ⟨h1, h2⟩ := hlu u hu
      simp only [wait_seconds]
      rw [show (some S : Option Nat).getD 0 = S from rfl,
        u32sub_of_le h1 (by omega)]
      rw [if_pos (by omega : u - S < R)]
      simp
  have hcond : (!(refreshWaits s).heat_calling &&
      (refreshWaits s).heat_wait_seconds.isNone) = false := by
    rcases hv : (refreshWaits s).heat_wait_seconds with _ | v
    · exact absurd hv hw
    · simp [hv]
  have hnoop := transition_heat_noop (refreshWaits s) (by simp [hact]) hcond
  rw [compute_eq, hnoop]

/-- While Cool is active with run constraint R, start S, and every seen time
inside the run window, the recompute leaves the whole transition a no-op. -/
theorem compute_cool_active_noop (s : Hvac) (R S : Nat)
    (hact : s.active_service = some HvacService.Cool)
    (hrun : s.cool_min_run_seconds = some R)
    (hstart : s.cool_last_start_seconds = some S)
    (hlu : ∀ u, s.last_update = some u → S ≤ u ∧ u < S + R)
    (hU : S + R ≤ U32) :
    Hvac.compute s =
      (fanGovern (refreshWaits s), (fanGovern (refreshWaits s)).state) := by
  have hw : (refreshWaits s).cool_wait_seconds ≠ none := by
    rw [refreshWaits_cool_wait]
    simp only [hact, if_pos, hrun, hstart]
    rcases hu : s.last_update with _ | u
    · simp [wait_seconds]
    · obtain ⟨h1, h2⟩ := hlu u hu
      simp only [wait_seconds]
      rw [show (some S : Option Nat).getD 0 = S from rfl,
        u32sub_of_le h1 (by omega)]
      rw [if_pos (by omega : u - S < R)]
      simp
  have hcond : (!(refreshWaits s).cool_calling &&
      (refreshWaits s).cool_wait_seconds.isNone) = false := by
    rcases hv : (refreshWaits s).cool_wait_seconds with _ | v
    · exact absurd hv hw
    · simp [hv]
  have hnoop := transition_cool_noop (refreshWaits s) (by simp [hact]) hcond
  rw [compute_eq, hnoop]

@[simp] theorem fanGovern_heat_last_start (s : Hvac) :
    (fanGovern s).heat_last_start_seconds = s.heat_last_start_seconds := by
  unfold fanGovern
  split_ifs <;> rfl

@[simp] theorem fanGovern_heat_last_stop (s : Hvac) :
    (fanGovern s).heat_last_stop_seconds = s.heat_last_stop_seconds := by
  unfold fanGovern
  split_ifs <;> rfl

@[simp] theorem fanGovern_cool_last_start (s : Hvac) :
    (fanGovern s).cool_last_start_seconds = s.cool_last_start_seconds := by
  unfold fanGovern
  split_ifs <;> rfl

@[simp] theorem fanGovern_cool_last_stop (s : Hvac) :
    (fanGovern s).cool_last_stop_seconds = s.cool_last_stop_seconds := by
  unfold fanGovern
  split_ifs <;> rfl

@[simp] theorem fanGovern_fan_last_start (s : Hvac) :
    (fanGovern s).fan_last_start_seconds = s.fan_last_start_seconds := by
  unfold fanGovern
  split_ifs <;> rfl

@[simp] theorem fanGovern_fan_last_stop (s : Hvac) :
    (fanGovern s).fan_last_stop_seconds = s.fan_last_stop_seconds := by
  unfold fanGovern
  split_ifs <;> rfl

/-- Claim C4: once a service is active with minimum run time R and last start
S, removing the call (idle) and ticking to any later time strictly below
S + R leaves the service active; ticking at or past S + R with the call still
removed stops it; and while the service is still called a tick never stops it.
Seen times are taken non-decreasing (spec sections 3 and 7), so any time
already recorded lies between S and the next tick value. Heat and cool
versions are both stated. -/
theorem run_time_enforcement :
    (∀ (h : Hvac) (R S t : Nat), h.active_service = some HvacService.Heat →
      h.heat_min_run_seconds = some R → h.heat_last_start_seconds = some S →
      (∀ u, h.last_update = some u → S ≤ u ∧ u ≤ t) →
      S ≤ t → t < S + R → S + R ≤ U32 →
      ((Hvac.tick (Hvac.idle h).1 t).2).service = some HvacService.Heat) ∧
    (∀ (h : Hvac) (R S t : Nat), h.active_service = some HvacService.Heat →
      h.heat_min_run_seconds = some R → h.heat_last_start_seconds = some S →
      h.heat_calling = false → h.cool_calling = false →
      S + R ≤ t → t < U32 →
      ((Hvac.tick h t).2).service = none) ∧
    (∀ (h : Hvac) (t : Nat), h.active_service = some HvacService.Heat →
      h.heat_calling = true →
      ((Hvac.tick h t).2).service = some HvacService.Heat) ∧
    (∀ (h : Hvac) (R S t : Nat), h.active_service = some HvacService.Cool →
      h.cool_min_run_seconds = some R → h.cool_last_start_seconds = some S →
      (∀ u, h.last_update = some u → S ≤ u ∧ u ≤ t) →
      S ≤ t → t < S + R → S + R ≤ U32 →
      ((Hvac.tick (Hvac.idle h).1 t).2).service = some HvacService.Cool) ∧
    (∀ (h : Hvac) (R S t : Nat), h.active_service = some HvacService.Cool →
      h.cool_min_run_seconds = some R → h.cool_last_start_seconds = some S →
      h.cool_calling = false → h.heat_calling = false →
      S + R ≤ t → t < U32 →
      ((Hvac.tick h t).2).service = none) ∧
    (∀ (h : Hvac) (t : Nat), h.active_service = some HvacService.Cool →
      h.cool_calling = true →
      ((Hvac.tick h t).2).service = some HvacService.Cool) := by
  refine ⟨?_, ?_, ?_, ?_, ?_, ?_⟩
  · intro h R S t hact hrun hstart hlu hst htR hU
    have e2 := compute_heat_active_noop
      { h with heat_calling := false, cool_calling := false } R S hact hrun
      hstart (fun u hu => ⟨(hlu u hu).1, lt_of_le_of_lt (hlu u hu).2 htR⟩) hU
    have e1 : (Hvac.idle h).1 =
        fanGovern (refreshWaits
          { h with heat_calling := false, cool_calling := false }) :=
      congrArg Prod.fst e2
    have ha1 : ((Hvac.idle h).1).active_service = some HvacService.Heat := by
      rw [e1]
      simpa using hact
    have hr1 : ((Hvac.idle h).1).heat_min_run_seconds = some R := by
      rw [e1]
      simpa using hrun
    have hs1 : ((Hvac.idle h).1).heat_last_start_seconds = some S := by
      rw [e1]
      simpa using hstart
    have e3 := compute_heat_active_noop
      { (Hvac.idle h).1 with last_update := some t } R S ha1 hr1 hs1
      (by
        intro u hu
        have : u = t := by simpa using hu.symm
        subst this
        exact ⟨hst, htR⟩) hU
    have e4 : Hvac.tick (Hvac.idle h).1 t =
        Hvac.compute { (Hvac.idle h).1 with last_update := some t } := rfl
    rw [e4, e3]
    simpa using ha1
  · intro h R S t hact hrun hstart hhc hcc hSR ht
    have e : Hvac.tick h t =
        Hvac.compute { h with last_update := some t } := rfl
    rw [e, compute_eq]
    simp only [state_service, fanGovern_active]
    have hw : wait_seconds (some t) (some R) (some S) = none := by
      simp only [wait_seconds]
      rw [show (some S : Option Nat).getD 0 = S from rfl,
        u32sub_of_le (by omega) ht]
      rw [if_neg (by omega : ¬ t - S < R)]
    unfold transition
    simp [refreshWaits, hact, hrun, hstart, hhc, hcc, hw]
    split_ifs <;> rfl
  · intro h t hact hcall
    have e : Hvac.tick h t =
        Hvac.compute { h with last_update := some t } := rfl
    rw [e, compute_eq]
    simp only [state_service, fanGovern_active]
    rw [transition_heat_noop _ (by simpa using hact) (by simp [hcall])]
    simpa using hact
  · intro h R S t hact hrun hstart hlu hst htR hU
    have e2 := compute_cool_active_noop
      { h with heat_calling := false, cool_calling := false } R S hact hrun
      hstart (fun u hu => ⟨(hlu u hu).1, lt_of_le_of_lt (hlu u hu).2 htR⟩) hU
    have e1 : (Hvac.idle h).1 =
        fanGovern (refreshWaits
          { h with heat_calling := false, cool_calling := false }) :=
      congrArg Prod.fst e2
    have ha1 : ((Hvac.idle h).1).active_service = some HvacService.Cool := by
      rw [e1]
      simpa using hact
    have hr1 : ((Hvac.idle h).1).cool_min_run_seconds = some R := by
      rw [e1]
      simpa using hrun
    have hs1 : ((Hvac.idle h).1).cool_last_start_seconds = some S := by
      rw [e1]
      simpa using hstart
    have e3 := compute_cool_active_noop
      { (Hvac.idle h).1 with last_update := some t } R S ha1 hr1 hs1
      (by
        intro u hu
        have : u = t := by simpa using hu.symm
        subst this
        exact ⟨hst, htR⟩) hU
    have e4 : Hvac.tick (Hvac.idle h).1 t =
        Hvac.compute { (Hvac.idle h).1 with last_update := some t } := rfl
    rw [e4, e3]
    simpa using ha1
  · intro h R S t hact hrun hstart hcc hhc hSR ht
    have e : Hvac.tick h t =
        Hvac.compute { h with last_update := some t } := rfl
    rw [e, compute_eq]
    simp only [state_service, fanGovern_active]
    have hw : wait_seconds (some t) (some R) (some S) = none := by
      simp only [wait_seconds]
      rw [show (some S : Option Nat).getD 0 = S from rfl,
        u32sub_of_le (by omega) ht]
      rw [if_neg (by omega : ¬ t - S < R)]
    unfold transition
    simp [refreshWaits, hact, hrun, hstart, hhc, hcc, hw]
    split_ifs <;> rfl
  · intro h t hact hcall
    have e : Hvac.tick h t =
        Hvac.compute { h with last_update := some t } := rfl
    rw [e, compute_eq]
    simp only [state_service, fanGovern_active]
    rw [transition_cool_noop _ (by simpa using hact) (by simp [hcall])]
    simpa using hact

/-- Witness for run_time_enforcement: all six parts at concrete inputs. -/
theorem run_time_enforcement_witness :
    ((Hvac.tick (Hvac.idle runWitnessHeat).1 120).2).service =
      some HvacService.Heat ∧
    ((Hvac.tick runWitnessHeat 150).2).service = none ∧
    ((Hvac.tick { runWitnessHeat with heat_calling := true } 999).2).service =
      some HvacService.Heat ∧
    ((Hvac.tick (Hvac.idle runWitnessCool).1 120).2).service =
      some HvacService.Cool ∧
    ((Hvac.tick runWitnessCool 150).2).service = none ∧
    ((Hvac.tick { runWitnessCool with cool_calling := true } 999).2).service =
      some HvacService.Cool := by
  refine ⟨?_, ?_, ?_, ?_, ?_, ?_⟩
  · exact run_time_enforcement.1 runWitnessHeat 100 50 120 rfl rfl rfl
      (by
        intro u hu
        have : some 50 = some u := hu
        have hu50 : u = 50 := by simpa using this.symm
        subst hu50
        omega)
      (by decide) (by decide) (by decide)
  · exact run_time_enforcement.2.1 runWitnessHeat 100 50 150 rfl rfl rfl rfl
      rfl (by decide) (by decide)
  · exact run_time_enforcement.2.2.1 _ 999 rfl rfl
  · exact run_time_enforcement.2.2.2.1 runWitnessCool 100 50 120 rfl rfl rfl
      (by
        intro u hu
        have : some 50 = some u := hu
        have hu50 : u = 50 := by simpa using this.symm
        subst hu50
        omega)
      (by decide) (by decide) (by decide)
  · exact run_time_enforcement.2.2.2.2.1 runWitnessCool 100 50 150 rfl rfl rfl
      rfl rfl (by decide) (by decide)
  · exact run_time_enforcement.2.2.2.2.2 _ 999 rfl rfl

/-! Claim C1: totality and the underflow hazard. -/

theorem tsBound_refreshWaits (s : Hvac) (h : tsBound s) :
    tsBound (refreshWaits s) := by
  unfold tsBound at h ⊢
  simpa using h

theorem tsBound_transition (s : Hvac) (h : tsBound s) :
    tsBound (transition s) := by
  unfold tsBound at h ⊢
  unfold transition
  cases hs : s.active_service with
  | none => dsimp only; split_ifs <;> simp_all
  | some sv => cases sv <;> (dsimp only; split_ifs <;> simp_all)

theorem tsBound_fanGovern (s : Hvac) (h : tsBound s) :
    tsBound (fanGovern s) := by
  unfold tsBound at h ⊢
  simpa using h

theorem tsBound_compute (s : Hvac) (h : tsBound s) :
    tsBound (Hvac.compute s).1 := by
  rw [compute_eq]
  exact tsBound_fanGovern _ (tsBound_transition _ (tsBound_refreshWaits _ h))

theorem compute_last_update (s : Hvac) :
    (Hvac.compute s).1.last_update = s.last_update := by
  rw [compute_eq]
  simp

theorem wsUnderflows_eq_false (lu ms lc : Option Nat)
    (h : lc.getD 0 ≤ lu.getD 0) : wsUnderflows lu ms lc = false := by
  unfold wsUnderflows
  cases lu with
  | none => cases ms <;> rfl
  | some u =>
    cases ms with
    | none => rfl
    | some m =>
      simp only [Option.getD_some] at h
      exact decide_eq_false (by omega)

theorem computeUnderflows_eq_false (s : Hvac) (h : tsBound s) :
    computeUnderflows s = false := by
  obtain ⟨h1, h2, h3, h4, h5, h6⟩ := h
  unfold computeUnderflows
  rw [wsUnderflows_eq_false _ _ _ h1, wsUnderflows_eq_false _ _ _ h2,
    wsUnderflows_eq_false _ _ _ h3, wsUnderflows_eq_false _ _ _ h4,
    wsUnderflows_eq_false _ _ _ h5, wsUnderflows_eq_false _ _ _ h6]
  split_ifs <;> rfl

theorem runUnderflows_false_aux (ops : List Op) : ∀ (lo : Nat) (h : Hvac),
    tsBound h → h.last_update.getD 0 ≤ lo → ticksMono lo ops = true →
    runUnderflows h ops = false := by
  induction ops with
  | nil =>
    intro lo h _ _ _
    rfl
  | cons op rest ih =>
    intro lo h hb hlo hm
    cases op with
    | tick s =>
      simp only [ticksMono, Bool.and_eq_true, decide_eq_true_eq] at hm
      have hb' : tsBound { h with last_update := some s } := by
        obtain ⟨b1, b2, b3, b4, b5, b6⟩ := hb
        refine ⟨?_, ?_, ?_, ?_, ?_, ?_⟩ <;> simp <;> omega
      simp only [runUnderflows, Bool.or_eq_false_iff]
      refine ⟨computeUnderflows_eq_false _ hb', ?_⟩
      apply ih s
      · exact tsBound_compute _ hb'
      · have e : (applyOp h (Op.tick s)).last_update = some s := by
          have := compute_last_update { h with last_update := some s }
          simpa [applyOp, Hvac.tick] using this
        simp [e]
      · exact hm.2
    | heat =>
      simp only [ticksMono] at hm
      have hb' : tsBound
          { h with heat_calling := true, cool_calling := false } := hb
      simp only [runUnderflows, Bool.or_eq_false_iff]
      refine ⟨computeUnderflows_eq_false _ hb', ?_⟩
      apply ih lo
      · exact tsBound_compute _ hb'
      · have e : (applyOp h Op.heat).last_update = h.last_update :=
          compute_last_update _
        simpa [e] using hlo
      · exact hm
    | cool =>
      simp only [ticksMono] at hm
      have hb' : tsBound
          { h with heat_calling := false, cool_calling := true } := hb
      simp only [runUnderflows, Bool.or_eq_false_iff]
      refine ⟨computeUnderflows_eq_false _ hb', ?_⟩
      apply ih lo
      · exact tsBound_compute _ hb'
      · have e : (applyOp h Op.cool).last_update = h.last_update :=
          compute_last_update _
        simpa [e] using hlo
      · exact hm
    | idle =>
      simp only [ticksMono] at hm
      have hb' : tsBound
          { h with heat_calling := false, cool_calling := false } := hb
      simp only [runUnderflows, Bool.or_eq_false_iff]
      refine ⟨computeUnderflows_eq_false _ hb', ?_⟩
      apply ih lo
      · exact tsBound_compute _ hb'
      · have e : (applyOp h Op.idle).last_update = h.last_update :=
          compute_last_update _
        simpa [e] using hlo
      · exact hm
    | setFanAuto b =>
      simp only [ticksMono] at hm
      have hb' : tsBound { h with fan_auto := b } := hb
      simp only [runUnderflows, Bool.or_eq_false_iff]
      refine ⟨computeUnderflows_eq_false _ hb', ?_⟩
      apply ih lo
      · exact tsBound_compute _ hb'
      · have e : (applyOp h (Op.setFanAuto b)).last_update = h.last_update :=
          compute_last_update _
        simpa [e] using hlo
      · exact hm
    | withHeat a b =>
      simp only [ticksMono] at hm
      simp only [runUnderflows, Bool.or_eq_false_iff]
      refine ⟨rfl, ?_⟩
      apply ih lo
      · exact hb
      · exact hlo
      · exact hm
    | withCool a b =>
      simp only [ticksMono] at hm
      simp only [runUnderflows, Bool.or_eq_false_iff]
      refine ⟨rfl, ?_⟩
      apply ih lo
      · exact hb
      · exact hlo
      · exact hm
    | withFan a b =>
      simp only [ticksMono] at hm
      simp only [runUnderflows, Bool.or_eq_false_iff]
      refine ⟨rfl, ?_⟩
      apply ih lo
      · exact hb
      · exact hlo
      · exact hm

/-- Claim C1 as stated is false: the sequence heat, tick 60, tick 0 (arbitrary
u32 arguments are allowed by the claim) makes the run-constraint subtraction
underflow at the final tick, since heat started at second 60 and the elapsed
value then moves backwards to 0. -/
theorem underflow_nonmonotone_counterexample :
    runUnderflows Hvac.default [Op.heat, Op.tick 60, Op.tick 0] = true := by
  decide

/-- Claim C1, amended: every public operation is total and returns a snapshot
(immediate in this embedding, every operation is a total function), and the
elapsed-minus-timestamp subtraction never underflows provided the supplied
tick values are non-decreasing, the monotonicity precondition of spec
sections 3 and 7. -/
theorem no_underflow_of_monotone_ticks (ops : List Op)
    (hm : ticksMono 0 ops = true) :
    runUnderflows Hvac.default ops = false := by
  apply runUnderflows_false_aux ops 0 Hvac.default
  · unfold tsBound
    decide
  · decide
  · exact hm

/-- Witness for no_underflow_of_monotone_ticks on a concrete monotone
sequence. -/
theorem no_underflow_of_monotone_ticks_witness :
    runUnderflows Hvac.default
      [Op.heat, Op.tick 0, Op.tick 60, Op.idle, Op.tick 120] = false :=
  no_underflow_of_monotone_ticks _ (by decide)

/-! Claims C8, C9, C10: invariants over all reachable states. -/

theorem fanInv_refreshWaits (s : Hvac) (h : fanInv s) :
    fanInv (refreshWaits s) := by
  unfold fanInv at h ⊢
  simpa using h

theorem fanInv_transition (s : Hvac) (h : fanInv s) :
    fanInv (transition s) := by
  unfold fanInv at h ⊢
  unfold transition
  cases hs : s.active_service with
  | none => dsimp only; split_ifs <;> simp_all
  | some sv => cases sv <;> (dsimp only; split_ifs <;> simp_all)

theorem fanInv_fanGovern (s : Hvac) (h : fanInv s) :
    fanInv (fanGovern s) := by
  unfold fanInv at h ⊢
  unfold fanGovern
  split_ifs <;> simp_all

theorem fanInv_compute (s : Hvac) (h : fanInv s) :
    fanInv (Hvac.compute s).1 := by
  rw [compute_eq]
  exact fanInv_fanGovern _ (fanInv_transition _ (fanInv_refreshWaits _ h))

theorem fanInv_applyOp (h : Hvac) (op : Op) (hh : fanInv h) :
    fanInv (applyOp h op) := by
  cases op with
  | tick s => exact fanInv_compute { h with last_update := some s } hh
  | heat =>
    exact fanInv_compute
      { h with heat_calling := true, cool_calling := false } hh
  | cool =>
    exact fanInv_compute
      { h with heat_calling := false, cool_calling := true } hh
  | idle =>
    exact fanInv_compute
      { h with heat_calling := false, cool_calling := false } hh
  | setFanAuto b => exact fanInv_compute { h with fan_auto := b } hh
  | withHeat a b => exact hh
  | withCool a b => exact hh
  | withFan a b => exact hh

theorem fanInv_runOps (ops : List Op) : ∀ h : Hvac,
    fanInv h → fanInv (runOps h ops) := by
  induction ops with
  | nil =>
    intro h hh
    exact hh
  | cons op rest ih =>
    intro h hh
    exact ih _ (fanInv_applyOp _ _ hh)

/-- Claim C9: in every state reachable from the default controller by public
operations, an active service implies the fan is on. -/
theorem fan_on_invariant (ops : List Op)
    (h : (runOps Hvac.default ops).active_service.isSome = true) :
    (runOps Hvac.default ops).fan_active = true := by
  have hinv := fanInv_runOps ops Hvac.default (Or.inl rfl)
  rcases hinv with hnone | hon
  · rw [hnone] at h
    cases h
  · exact hon

/-- Witness for fan_on_invariant: a reachable state with Heat active. -/
theorem fan_on_invariant_witness :
    (runOps Hvac.default
      [Op.withHeat none none, Op.withFan none none, Op.heat]).fan_active =
      true :=
  fan_on_invariant _ (by decide)

theorem compute_heat_calling (s : Hvac) :
    (Hvac.compute s).1.heat_calling = s.heat_calling := by
  rw [compute_eq]
  simp

theorem compute_cool_calling (s : Hvac) :
    (Hvac.compute s).1.cool_calling = s.cool_calling := by
  rw [compute_eq]
  simp

theorem callInv_applyOp (h : Hvac) (op : Op)
    (hh : (h.heat_calling && h.cool_calling) = false) :
    ((applyOp h op).heat_calling && (applyOp h op).cool_calling) = false := by
  cases op with
  | tick s =>
    simp only [applyOp, Hvac.tick, compute_heat_calling, compute_cool_calling]
    exact hh
  | heat =>
    simp [applyOp, Hvac.heat, compute_heat_calling, compute_cool_calling]
  | cool =>
    simp [applyOp, Hvac.cool, compute_heat_calling, compute_cool_calling]
  | idle =>
    simp [applyOp, Hvac.idle, compute_heat_calling, compute_cool_calling]
  | setFanAuto b =>
    simp only [applyOp, Hvac.set_fan_auto, compute_heat_calling,
      compute_cool_calling]
    exact hh
  | withHeat a b => exact hh
  | withCool a b => exact hh
  | withFan a b => exact hh

theorem callInv_runOps (ops : List Op) : ∀ h : Hvac,
    (h.heat_calling && h.cool_calling) = false →
    ((runOps h ops).heat_calling && (runOps h ops).cool_calling) = false := by
  induction ops with
  | nil =>
    intro h hh
    exact hh
  | cons op rest ih =>
    intro h hh
    exact ih _ (callInv_applyOp _ _ hh)

/-- Claim C10: in every state reachable from the default controller by public
operations, the heat call and the cool call are never both set. -/
theorem single_call_invariant (ops : List Op) :
    ((runOps Hvac.default ops).heat_calling &&
      (runOps Hvac.default ops).cool_calling) = false :=
  callInv_runOps ops Hvac.default rfl

/-- Claim C8: in every state reachable from the default controller by public
operations, the active service is none, Heat alone, or Cool alone; no snapshot
can report both, since every snapshot projects this field. -/
theorem mutual_exclusion (ops : List Op) :
    (runOps Hvac.default ops).active_service = none ∨
    (runOps Hvac.default ops).active_service = some HvacService.Heat ∨
    (runOps Hvac.default ops).active_service = some HvacService.Cool := by
  rcases hs : (runOps Hvac.default ops).active_service with _ | sv
  · exact Or.inl rfl
  · cases sv
    · exact Or.inr (Or.inl rfl)
    · exact Or.inr (Or.inr rfl)

/-! Claim C3: recovery enforcement. -/

theorem recoverStart_eq (R : Nat) :
    (Hvac.heat ((Hvac.default.with_heat none (some R)).with_fan none
      none)).1 = recoverState R none (some R) (some 300) := rfl

theorem recoverStartC_eq (R : Nat) :
    (Hvac.cool ((Hvac.default.with_cool none (some R)).with_fan none
      none)).1 = recoverStateC R none (some 60) (some R) := rfl

theorem tick_recoverState_lt (R : Nat) (lu hw cw : Option Nat) (i : Nat)
    (hiR : i < R) (hR : R < U32) :
    Hvac.tick (recoverState R lu hw cw) i =
      (recoverState R (some i) (some (R - i))
        (wait_seconds (some i) (some 300) none), ⟨none, false⟩) := by
  have hws : wait_seconds (some i) (some R) none = some (R - i) := by
    simp only [wait_seconds]
    rw [show ((none : Option Nat).getD 0) = 0 from rfl,
      u32sub_of_le (Nat.zero_le i) (by omega)]
    rw [if_pos (by omega : i - 0 < R)]
    simp
  have e : Hvac.tick (recoverState R lu hw cw) i =
      Hvac.compute { recoverState R lu hw cw with last_update := some i } :=
    rfl
  rw [e, compute_eq]
  simp [recoverState, refreshWaits, transition, fanGovern, Hvac.state, hws]

theorem tick_recoverStateC_lt (R : Nat) (lu hw cw : Option Nat) (i : Nat)
    (hiR : i < R) (hR : R < U32) :
    Hvac.tick (recoverStateC R lu hw cw) i =
      (recoverStateC R (some i) (wait_seconds (some i) (some 60) none)
        (some (R - i)), ⟨none, false⟩) := by
  have hws : wait_seconds (some i) (some R) none = some (R - i) := by
    simp only [wait_seconds]
    rw [show ((none : Option Nat).getD 0) = 0 from rfl,
      u32sub_of_le (Nat.zero_le i) (by omega)]
    rw [if_pos (by omega : i - 0 < R)]
    simp
  have e : Hvac.tick (recoverStateC R lu hw cw) i =
      Hvac.compute { recoverStateC R lu hw cw with last_update := some i } :=
    rfl
  rw [e, compute_eq]
  simp [recoverStateC, refreshWaits, transition, fanGovern, Hvac.state, hws]

theorem tick_recoverState_eqR (R : Nat) (lu hw cw : Option Nat)
    (hR : R < U32) :
    (Hvac.tick (recoverState R lu hw cw) R).2 =
      ⟨some HvacService.Heat, true⟩ := by
  have hws : wait_seconds (some R) (some R) none = none := by
    simp only [wait_seconds]
    rw [show ((none : Option Nat).getD 0) = 0 from rfl,
      u32sub_of_le (Nat.zero_le R) hR]
    rw [if_neg (by omega : ¬ R - 0 < R)]
  have e : Hvac.tick (recoverState R lu hw cw) R =
      Hvac.compute { recoverState R lu hw cw with last_update := some R } :=
    rfl
  rw [e, compute_eq]
  simp [recoverState, refreshWaits, transition, fanGovern, Hvac.state, hws]

theorem tick_recoverStateC_eqR (R : Nat) (lu hw cw : Option Nat)
    (hR : R < U32) :
    (Hvac.tick (recoverStateC R lu hw cw) R).2 =
      ⟨some HvacService.Cool, true⟩ := by
  have hws : wait_seconds (some R) (some R) none = none := by
    simp only [wait_seconds]
    rw [show ((none : Option Nat).getD 0) = 0 from rfl,
      u32sub_of_le (Nat.zero_le R) hR]
    rw [if_neg (by omega : ¬ R - 0 < R)]
  have e : Hvac.tick (recoverStateC R lu hw cw) R =
      Hvac.compute { recoverStateC R lu hw cw with last_update := some R } :=
    rfl
  rw [e, compute_eq]
  simp [recoverStateC, refreshWaits, transition, fanGovern, Hvac.state, hws]

theorem tickThrough_recover (R : Nat) (hR : R < U32) :
    ∀ i, i ≤ R → ∃ lu hw cw,
      tickThrough (recoverState R none (some R) (some 300)) i =
        recoverState R lu hw cw := by
  intro i
  induction i with
  | zero =>
    intro _
    exact ⟨none, some R, some 300, rfl⟩
  | succ n ihn =>
    intro hle
    obtain ⟨lu, hw, cw, e⟩ := ihn (by omega)
    refine ⟨some n, some (R - n), wait_seconds (some n) (some 300) none, ?_⟩
    show (Hvac.tick (tickThrough _ n) n).1 = _
    rw [e, congrArg Prod.fst
      (tick_recoverState_lt R lu hw cw n (by omega) hR)]

theorem tickThrough_recoverC (R : Nat) (hR : R < U32) :
    ∀ i, i ≤ R → ∃ lu hw cw,
      tickThrough (recoverStateC R none (some 60) (some R)) i =
        recoverStateC R lu hw cw := by
  intro i
  induction i with
  | zero =>
    intro _
    exact ⟨none, some 60, some R, rfl⟩
  | succ n ihn =>
    intro hle
    obtain ⟨lu, hw, cw, e⟩ := ihn (by omega)
    refine ⟨some n, wait_seconds (some n) (some 60) none, some (R - n), ?_⟩
    show (Hvac.tick (tickThrough _ n) n).1 = _
    rw [e, congrArg Prod.fst
      (tick_recoverStateC_lt R lu hw cw n (by omega) hR)]

/-- Claim C3 as stated is false: with R = 0 (so 0..R-1 is empty) on the
default controller, calling heat and ticking to second R = 0 yields no active
service, because the default fan carries a 60 second recovery constraint that
gates the start. -/
theorem recovery_fan_gated_counterexample :
    ((Hvac.tick (Hvac.heat (Hvac.default.with_heat none (some 0))).1
      0).2).service = none := by
  decide

/-- Claim C3, amended: with the fan also unconstrained (as in the crate doc
example), for every R, configuring a service with min_recover_seconds R and no
prior run, calling it and ticking through each second 0..R-1 yields no active
service at every tick, and ticking to R yields that service active; stated for
heat and for cool. -/
theorem recovery_enforcement (R : Nat) (hR : R < U32) :
    (∀ i, i < R →
      ((Hvac.tick (tickThrough (Hvac.heat ((Hvac.default.with_heat none
        (some R)).with_fan none none)).1 i) i).2).service = none) ∧
    ((Hvac.tick (tickThrough (Hvac.heat ((Hvac.default.with_heat none
        (some R)).with_fan none none)).1 R) R).2).service =
      some HvacService.Heat ∧
    (∀ i, i < R →
      ((Hvac.tick (tickThrough (Hvac.cool ((Hvac.default.with_cool none
        (some R)).with_fan none none)).1 i) i).2).service = none) ∧
    ((Hvac.tick (tickThrough (Hvac.cool ((Hvac.default.with_cool none
        (some R)).with_fan none none)).1 R) R).2).service =
      some HvacService.Cool := by
  refine ⟨?_, ?_, ?_, ?_⟩
  · intro i hi
    obtain ⟨lu, hw, cw, e⟩ := tickThrough_recover R hR i (le_of_lt hi)
    rw [recoverStart_eq, e, tick_recoverState_lt R lu hw cw i hi hR]
  · obtain ⟨lu, hw, cw, e⟩ := tickThrough_recover R hR R le_rfl
    rw [recoverStart_eq, e, tick_recoverState_eqR R lu hw cw hR]
  · intro i hi
    obtain ⟨lu, hw, cw, e⟩ := tickThrough_recoverC R hR i (le_of_lt hi)
    rw [recoverStartC_eq, e, tick_recoverStateC_lt R lu hw cw i hi hR]
  · obtain ⟨lu, hw, cw, e⟩ := tickThrough_recoverC R hR R le_rfl
    rw [recoverStartC_eq, e, tick_recoverStateC_eqR R lu hw cw hR]

/-- Witness for recovery_enforcement at R = 2. -/
theorem recovery_enforcement_witness :
    ((Hvac.tick (tickThrough (Hvac.heat ((Hvac.default.with_heat none
      (some 2)).with_fan none none)).1 1) 1).2).service = none ∧
    ((Hvac.tick (tickThrough (Hvac.heat ((Hvac.default.with_heat none
      (some 2)).with_fan none none)).1 2) 2).2).service =
        some HvacService.Heat ∧
    ((Hvac.tick (tickThrough (Hvac.cool ((Hvac.default.with_cool none
      (some 2)).with_fan none none)).1 2) 2).2).service =
        some HvacService.Cool :=
  ⟨(recovery_enforcement 2 (by decide)).1 1 (by decide),
    (recovery_enforcement 2 (by decide)).2.1,
    (recovery_enforcement 2 (by decide)).2.2.2⟩
